import Mathlib

/-! A shallow embedding of the QuickPID Arduino library (QuickPID.h /
QuickPID.cpp, version 3.1.1) and proofs about its behaviour.

Modelling conventions:
* `float` values are modelled as exact rational numbers (`ℚ`); the claims
  under study are algebraic/state-machine facts, stated and settled in this
  idealised arithmetic.
* `uint32_t` values are natural numbers, with arithmetic taken modulo `2^32`
  (`U32`) where the C code can wrap (the `now - lastTime` and
  `micros() - sampleTimeUs` subtractions).
* The three caller-owned cells `*myInput`, `*myOutput`, `*mySetpoint` are
  carried inside the modelled state `PIDState` (fields `input`, `output`,
  `setpoint`); the C++ object holds pointers to them and they are read and
  written only through the controller's operations modelled here.
* The injected clock capability `tGetTimeMicros` is modelled as an optional
  function from an abstract call instant (a natural number supplied by the
  environment at each call site that reads the clock) to the microsecond
  reading returned.  `Compute` and the constructor take that instant as an
  extra argument; `Compute` also takes `nowInit`, the indeterminate initial
  value of its local variable `now` (which the C code leaves uninitialised
  on paths that do not read the clock but still stores into `lastTime`).
-/

namespace QuickPID

/-- `enum class Control : uint8_t {manual, automatic, timer}` -/
inductive Control : Type where
  | manual : Control
  | automatic : Control
  | timer : Control
deriving DecidableEq, Repr

/-- `enum class Action : uint8_t {direct, reverse}` -/
inductive Action : Type where
  | direct : Action
  | reverse : Action
deriving DecidableEq, Repr

/-- `enum class pMode : uint8_t {pOnError, pOnMeas, pOnErrorMeas}` -/
inductive PMode : Type where
  | pOnError : PMode
  | pOnMeas : PMode
  | pOnErrorMeas : PMode
deriving DecidableEq, Repr

/-- `enum class dMode : uint8_t {dOnError, dOnMeas}` -/
inductive DMode : Type where
  | dOnError : DMode
  | dOnMeas : DMode
deriving DecidableEq, Repr

/-- `enum class iAwMode : uint8_t {iAwCondition, iAwClamp, iAwOff}` -/
inductive IAwMode : Type where
  | iAwCondition : IAwMode
  | iAwClamp : IAwMode
  | iAwOff : IAwMode
deriving DecidableEq, Repr

/-- `2^32`, the modulus of `uint32_t` arithmetic. -/
def U32 : ℕ := 4294967296

/-- `uint32_t` subtraction `a - b`, i.e. `(a - b) mod 2^32`. -/
def u32sub (a b : ℕ) : ℕ := (a % U32 + (U32 - b % U32)) % U32

/-- `MIN(a,b) = ((a) < (b) ? (a) : (b))` from QuickPID.h. -/
def cMin (a b : ℚ) : ℚ := if a < b then a else b

/-- `MAX(a,b) = ((a) < (b) ? (b) : (a))` from QuickPID.h. -/
def cMax (a b : ℚ) : ℚ := if a < b then b else a

/-- `CONSTRAIN(x,a,b) = MIN(MAX(x,a),b)` from QuickPID.h. -/
def constrain (x a b : ℚ) : ℚ := cMin (cMax x a) b

/-- The full state of a `QuickPID` object, together with the three
caller-owned cells it is linked to (`input`, `output`, `setpoint` model
`*myInput`, `*myOutput`, `*mySetpoint`).  Field names follow the C++
members. -/
structure PIDState : Type where
  dispKp : ℚ
  dispKi : ℚ
  dispKd : ℚ
  pTerm : ℚ
  iTerm : ℚ
  dTerm : ℚ
  kp : ℚ
  ki : ℚ
  kd : ℚ
  input : ℚ
  output : ℚ
  setpoint : ℚ
  getMicros : Option (ℕ → ℕ)
  mode : Control
  action : Action
  pmode : PMode
  dmode : DMode
  iawmode : IAwMode
  sampleTimeUs : ℕ
  lastTime : ℕ
  outputSum : ℚ
  outMin : ℚ
  outMax : ℚ
  error : ℚ
  lastError : ℚ
  lastInput : ℚ

/-- Query `GetPterm()`. -/
def GetPterm (s : PIDState) : ℚ := s.pTerm

/-- Query `GetIterm()`. -/
def GetIterm (s : PIDState) : ℚ := s.iTerm

/-- Query `GetDterm()`. -/
def GetDterm (s : PIDState) : ℚ := s.dTerm

/-- `QuickPID::SetTunings(Kp, Ki, Kd, pMode, dMode, iAwMode)`
(QuickPID.cpp lines 124-136). -/
def SetTunings (s : PIDState) (Kp Ki Kd : ℚ)
    (pm : PMode) (dm : DMode) (iaw : IAwMode) : PIDState :=
  if Kp < 0 ∨ Ki < 0 ∨ Kd < 0 then s
  else
    let SampleTimeSec : ℚ := (s.sampleTimeUs : ℚ) / 1000000
    { s with pmode := pm, dmode := dm, iawmode := iaw,
             dispKp := Kp, dispKi := Ki, dispKd := Kd,
             kp := Kp, ki := Ki * SampleTimeSec, kd := Kd / SampleTimeSec }

/-- The reduced overload `QuickPID::SetTunings(Kp, Ki, Kd)`
(QuickPID.cpp lines 141-143), which reuses the stored mode selections. -/
def SetTunings3 (s : PIDState) (Kp Ki Kd : ℚ) : PIDState :=
  SetTunings s Kp Ki Kd s.pmode s.dmode s.iawmode

/-- `QuickPID::SetSampleTimeUs(NewSampleTimeUs)` (QuickPID.cpp lines 148-155). -/
def SetSampleTimeUs (s : PIDState) (NewSampleTimeUs : ℕ) : PIDState :=
  if 0 < NewSampleTimeUs then
    let ratio : ℚ := (NewSampleTimeUs : ℚ) / (s.sampleTimeUs : ℚ)
    { s with ki := s.ki * ratio, kd := s.kd / ratio,
             sampleTimeUs := NewSampleTimeUs }
  else s

/-- `QuickPID::SetOutputLimits(Min, Max)` (QuickPID.cpp lines 161-170). -/
def SetOutputLimits (s : PIDState) (Min Max : ℚ) : PIDState :=
  if Min ≥ Max then s
  else
    let s1 := { s with outMin := Min, outMax := Max }
    if s1.mode ≠ Control.manual then
      { s1 with output := constrain s1.output Min Max,
                outputSum := constrain s1.outputSum Min Max }
    else s1

/-- `QuickPID::Initialize()` (QuickPID.cpp lines 192-196): bumpless-transfer
re-initialisation. -/
def Initialize (s : PIDState) : PIDState :=
  let s1 := { s with outputSum := s.output, lastInput := s.input }
  { s1 with outputSum := constrain s1.outputSum s1.outMin s1.outMax }

/-- `QuickPID::SetMode(Mode, getMicros)` (QuickPID.cpp lines 177-186).
The body stores `NULL` into `_getMicros` unconditionally (the `gm`
parameter is never used), then tests the member it just nulled, so the
`lastTime` update is dead code; it is transcribed faithfully.  `t` is the
call instant the dead clock read would use. -/
def SetMode (s : PIDState) (Mode : Control) (gm : Option (ℕ → ℕ)) (t : ℕ) :
    PIDState :=
  let s1 := if s.mode = Control.manual ∧ Mode ≠ Control.manual
            then Initialize s else s
  let s2 := { s1 with mode := Mode, getMicros := none }
  match s2.getMicros with
  | some f => { s2 with lastTime := u32sub (f t) s2.sampleTimeUs }
  | none => s2

/-- `QuickPID::SetControllerDirection(Action)` (QuickPID.cpp lines 202-204). -/
def SetControllerDirection (s : PIDState) (a : Action) : PIDState :=
  { s with action := a }

/-- The main constructor (QuickPID.cpp lines 13-35).  `junk` is the
indeterminate initial content of the members the constructor does not set
(C++ leaves them uninitialised, except the `dispK*` in-class initialisers);
`In`, `Out`, `Sp` are the initial contents of the linked cells; `t` is the
call instant of the constructor's clock read (used only when a clock is
supplied). -/
def mkQuickPID (junk : PIDState) (In Out Sp : ℚ) (Kp Ki Kd : ℚ)
    (pm : PMode) (dm : DMode) (iaw : IAwMode) (act : Action)
    (gm : Option (ℕ → ℕ)) (t : ℕ) : PIDState :=
  let s0 := { junk with input := In, output := Out, setpoint := Sp,
                        mode := Control.manual, getMicros := gm,
                        dispKp := 0, dispKi := 0, dispKd := 0 }
  let s1 := SetOutputLimits s0 0 255
  let s2 := { s1 with sampleTimeUs := 100000 }
  let s3 := SetControllerDirection s2 act
  let s4 := SetTunings s3 Kp Ki Kd pm dm iaw
  match gm with
  | some f => { s4 with lastTime := u32sub (f t) s4.sampleTimeUs }
  | none => s4

/-- The value the local `now` holds when `Compute` runs its main branch:
the clock reading when mode is `automatic` and a clock is held, otherwise
the indeterminate initial value `nowInit` (QuickPID.cpp lines 66-72). -/
def nowOf (s : PIDState) (t nowInit : ℕ) : ℕ :=
  match s.mode, s.getMicros with
  | Control.automatic, some f => f t % U32
  | _, _ => nowInit

/-- The local `timeChange` in `Compute`: `now - lastTime` in `uint32_t`
arithmetic when mode is `automatic` and a clock is held, otherwise its
initialiser `0` (QuickPID.cpp lines 67-72). -/
def timeChangeOf (s : PIDState) (t : ℕ) : ℕ :=
  match s.mode, s.getMicros with
  | Control.automatic, some f => u32sub (f t) s.lastTime
  | _, _ => 0

/-- The local `error` after the optional `reverse` negation
(QuickPID.cpp lines 79-80); also the value stored into the member `error`. -/
def errAfter (s : PIDState) : ℚ :=
  let e := s.setpoint - s.input
  if s.action = Action.reverse then -e else e

/-- The local `dInput` after the optional `reverse` negation
(QuickPID.cpp lines 76-77). -/
def dInputAfter (s : PIDState) : ℚ :=
  let d := s.input - s.lastInput
  if s.action = Action.reverse then -d else d

/-- The local `dError = error - lastError` (QuickPID.cpp line 81). -/
def dErrorAfter (s : PIDState) : ℚ := errAfter s - s.lastError

/-- The local `peTerm` after the proportional-mode split
(QuickPID.cpp lines 83-90). -/
def peTermOf (s : PIDState) : ℚ :=
  match s.pmode with
  | PMode.pOnError => s.kp * errAfter s
  | PMode.pOnMeas => 0
  | PMode.pOnErrorMeas => s.kp * errAfter s * (1/2)

/-- The local `pmTerm` after the proportional-mode split
(QuickPID.cpp lines 83-90). -/
def pmTermOf (s : PIDState) : ℚ :=
  match s.pmode with
  | PMode.pOnError => 0
  | PMode.pOnMeas => s.kp * dInputAfter s
  | PMode.pOnErrorMeas => s.kp * dInputAfter s * (1/2)

/-- The new `dTerm` (QuickPID.cpp lines 93-94). -/
def dTermOf (s : PIDState) : ℚ :=
  if s.dmode = DMode.dOnError then s.kd * dErrorAfter s
  else -(s.kd * dInputAfter s)

/-- The hypothetical fully-integrated output
`iTermOut = (peTerm - pmTerm) + ki * (iTerm + error)` computed by the
conditional anti-windup block, where `iTerm` is still `ki * error`
(QuickPID.cpp line 99). -/
def iTermOutOf (s : PIDState) : ℚ :=
  (peTermOf s - pmTermOf s) + s.ki * (s.ki * errAfter s + errAfter s)

/-- The `aw` flag of the conditional anti-windup block
(QuickPID.cpp lines 98-101). -/
def awTriggered (s : PIDState) : Prop :=
  (iTermOutOf s > s.outMax ∧ dErrorAfter s > 0) ∨
  (iTermOutOf s < s.outMin ∧ dErrorAfter s < 0)

instance (s : PIDState) : Decidable (awTriggered s) := by
  unfold awTriggered; infer_instance

/-- The new `iTerm`: `ki * error`, overwritten by
`CONSTRAIN(iTermOut, -outMax, outMax)` when the anti-windup mode is
`iAwCondition`, the `aw` flag is set and `ki` is nonzero
(QuickPID.cpp lines 92, 97-103). -/
def iTermAfter (s : PIDState) : ℚ :=
  if s.iawmode = IAwMode.iAwCondition ∧ awTriggered s ∧ s.ki ≠ 0
  then constrain (iTermOutOf s) (-s.outMax) s.outMax
  else s.ki * errAfter s

/-- The new `outputSum`: the integral amount is added, then `pmTerm` is
folded in, unclamped when anti-windup is `iAwOff` and clamped to the output
range otherwise (QuickPID.cpp lines 106-108). -/
def outputSumAfter (s : PIDState) : ℚ :=
  let os1 := s.outputSum + iTermAfter s
  if s.iawmode = IAwMode.iAwOff then os1 - pmTermOf s
  else constrain (os1 - pmTermOf s) s.outMin s.outMax

/-- The value written through the output link:
`CONSTRAIN(outputSum + peTerm + dTerm, outMin, outMax)`
(QuickPID.cpp line 109). -/
def outputAfter (s : PIDState) : ℚ :=
  constrain (outputSumAfter s + peTermOf s + dTermOf s) s.outMin s.outMax

/-- `QuickPID::Compute()` (QuickPID.cpp lines 65-117).  `t` is the call
instant a clock read would use; `nowInit` is the indeterminate initial
value of the uninitialised local `now`.  Returns the new state paired with
the C function's return value. -/
def Compute (s : PIDState) (t nowInit : ℕ) : PIDState × Bool :=
  if s.mode = Control.manual then (s, false)
  else if s.mode = Control.timer ∨ s.sampleTimeUs ≤ timeChangeOf s t then
    ({ s with pTerm := peTermOf s - pmTermOf s,
              iTerm := iTermAfter s,
              dTerm := dTermOf s,
              error := errAfter s,
              outputSum := outputSumAfter s,
              output := outputAfter s,
              lastError := errAfter s,
              lastInput := s.input,
              lastTime := nowOf s t nowInit }, true)
  else (s, false)

/-- A fully concrete controller state used to instantiate the theorems:
the constructor's defaults (limits `[0, 255]`, sample period `100000` µs,
`manual` mode, direct action, `pOnError`/`dOnMeas`/`iAwCondition`), zero
gains, zeroed cells and history, no clock. -/
def sBase : PIDState :=
  { dispKp := 0, dispKi := 0, dispKd := 0, pTerm := 0, iTerm := 0, dTerm := 0,
    kp := 0, ki := 0, kd := 0, input := 0, output := 0, setpoint := 0,
    getMicros := none, mode := Control.manual, action := Action.direct,
    pmode := PMode.pOnError, dmode := DMode.dOnMeas,
    iawmode := IAwMode.iAwCondition, sampleTimeUs := 100000, lastTime := 0,
    outputSum := 0, outMin := 0, outMax := 255, error := 0, lastError := 0,
    lastInput := 0 }

/-- The spec's concrete scenario state: direct action, proportional on
error, derivative on measurement, conditional anti-windup, tunings
`Kp=2, Ki=5, Kd=1` installed through `SetTunings` at the default 100000 µs
period, output range `[0,255]`, freshly activated with `outputSum = 10`,
`lastInput = 10`, `lastError = 0`, input cell `10`, setpoint cell `20`,
output cell `10`, `timer` (externally clocked) mode. -/
def sC1 : PIDState :=
  SetTunings { sBase with input := 10, setpoint := 20, output := 10,
                          outputSum := 10, lastInput := 10, lastError := 0,
                          mode := Control.timer }
    2 5 1 PMode.pOnError DMode.dOnMeas IAwMode.iAwCondition

/-- A concrete state exercising the conditional anti-windup branch:
`timer` mode, `kp = 1000`, `ki = 1/2`, `kd = 0`, derivative on error,
setpoint `1`, everything else at the defaults of `sBase`.  One `Compute`
gives `error = 1`, `dError = 1`, `peTerm = 1000`, so
`iTermOut = 1000.75 > outMax = 255` while `dError > 0`. -/
def sC3 : PIDState :=
  { sBase with mode := Control.timer, kp := 1000, ki := 1/2, kd := 0,
               setpoint := 1, dmode := DMode.dOnError }

/-- A constant clock capability used as a concrete witness. -/
def clk42 : ℕ → ℕ := fun _ => 42

/-- `sBase` with the clock capability `clk42` configured. -/
def sClk : PIDState := { sBase with getMicros := some clk42 }

/-- C1: in the spec's concrete scenario state `sC1`, one `Compute` call
returns `true` and writes exactly `35` to the output cell, leaving
`pTerm = 20`, `iTerm = 5`, `dTerm = 0`. -/
theorem c1_scenario_compute :
    (Compute sC1 0 0).2 = true ∧
    (Compute sC1 0 0).1.output = 35 ∧
    GetPterm (Compute sC1 0 0).1 = 20 ∧
    GetIterm (Compute sC1 0 0).1 = 5 ∧
    GetDterm (Compute sC1 0 0).1 = 0 := by
  norm_num +decide [Compute, sC1, sBase, SetTunings, timeChangeOf, nowOf,
    errAfter, dInputAfter, dErrorAfter, peTermOf, pmTermOf, dTermOf,
    iTermOutOf, iTermAfter, awTriggered, outputSumAfter, outputAfter,
    constrain, cMin, cMax, GetPterm, GetIterm, GetDterm]

/-- C2: `SetMode` discards every clock capability.  `sClk` holds the clock
`clk42`; passing that same clock to `SetMode` while entering `automatic`
mode nevertheless leaves the controller with no clock (the parameter is
never consulted and the member is unconditionally nulled), and a `SetMode`
call with no clock argument likewise drops the previously configured
clock. -/
theorem c2_setmode_discards_clock :
    sClk.getMicros = some clk42 ∧
    (SetMode sClk Control.automatic (some clk42) 0).getMicros = none ∧
    (SetMode sClk Control.timer none 0).getMicros = none :=
  ⟨rfl, rfl, rfl⟩

/-- C4: rejected updates are complete no-ops: `SetTunings` with any
negative gain, `SetSampleTimeUs` with period `0`, and `SetOutputLimits`
with `Min ≥ Max` each return the entire state — gains, modes, limits,
period, accumulator, history, terms and the linked cells — unchanged. -/
theorem c4_invalid_updates_are_noops (s : PIDState) (Kp Ki Kd Mn Mx : ℚ)
    (pm : PMode) (dm : DMode) (iaw : IAwMode)
    (hg : Kp < 0 ∨ Ki < 0 ∨ Kd < 0) (hl : Mn ≥ Mx) :
    SetTunings s Kp Ki Kd pm dm iaw = s ∧
    SetSampleTimeUs s 0 = s ∧
    SetOutputLimits s Mn Mx = s := by
  refine ⟨?_, ?_, ?_⟩
  · unfold SetTunings; rw [if_pos hg]
  · unfold SetSampleTimeUs; rw [if_neg (lt_irrefl 0)]
  · unfold SetOutputLimits; rw [if_pos hl]

/-- Witness for C4 at the concrete state `sBase` with `Kp = -1` and the
limit pair `(1, 0)`. -/
theorem c4_invalid_updates_are_noops_witness :
    SetTunings sBase (-1) 0 0 PMode.pOnError DMode.dOnMeas
        IAwMode.iAwCondition = sBase ∧
    SetSampleTimeUs sBase 0 = sBase ∧
    SetOutputLimits sBase 1 0 = sBase :=
  c4_invalid_updates_are_noops sBase (-1) 0 0 1 0 PMode.pOnError DMode.dOnMeas
    IAwMode.iAwCondition (Or.inl (by norm_num)) (by norm_num)

/-- C7: for nonnegative gains and a positive stored sample period,
`SetTunings` stores the display gains exactly and sets
`kp = Kp`, `ki = Ki * T`, `kd = Kd / T` with `T = sampleTimeUs / 1000000`
seconds. -/
theorem c7_settunings_scaled_gains (s : PIDState) (Kp Ki Kd : ℚ)
    (pm : PMode) (dm : DMode) (iaw : IAwMode)
    (h1 : 0 ≤ Kp) (h2 : 0 ≤ Ki) (h3 : 0 ≤ Kd) (hT : 0 < s.sampleTimeUs) :
    (SetTunings s Kp Ki Kd pm dm iaw).dispKp = Kp ∧
    (SetTunings s Kp Ki Kd pm dm iaw).dispKi = Ki ∧
    (SetTunings s Kp Ki Kd pm dm iaw).dispKd = Kd ∧
    (SetTunings s Kp Ki Kd pm dm iaw).kp = Kp ∧
    (SetTunings s Kp Ki Kd pm dm iaw).ki
      = Ki * ((s.sampleTimeUs : ℚ) / 1000000) ∧
    (SetTunings s Kp Ki Kd pm dm iaw).kd
      = Kd / ((s.sampleTimeUs : ℚ) / 1000000) := by
  have hneg : ¬(Kp < 0 ∨ Ki < 0 ∨ Kd < 0) := by
    push_neg
    exact ⟨h1, h2, h3⟩
  unfold SetTunings
  rw [if_neg hneg]
  exact ⟨rfl, rfl, rfl, rfl, rfl, rfl⟩

/-- Witness for C7: `SetTunings sBase 2 5 1` at the default 100000 µs
period. -/
theorem c7_settunings_scaled_gains_witness :
    (SetTunings sBase 2 5 1 PMode.pOnError DMode.dOnMeas
        IAwMode.iAwCondition).dispKp = 2 ∧
    (SetTunings sBase 2 5 1 PMode.pOnError DMode.dOnMeas
        IAwMode.iAwCondition).dispKi = 5 ∧
    (SetTunings sBase 2 5 1 PMode.pOnError DMode.dOnMeas
        IAwMode.iAwCondition).dispKd = 1 ∧
    (SetTunings sBase 2 5 1 PMode.pOnError DMode.dOnMeas
        IAwMode.iAwCondition).kp = 2 ∧
    (SetTunings sBase 2 5 1 PMode.pOnError DMode.dOnMeas
        IAwMode.iAwCondition).ki
      = 5 * ((sBase.sampleTimeUs : ℚ) / 1000000) ∧
    (SetTunings sBase 2 5 1 PMode.pOnError DMode.dOnMeas
        IAwMode.iAwCondition).kd
      = 1 / ((sBase.sampleTimeUs : ℚ) / 1000000) :=
  c7_settunings_scaled_gains sBase 2 5 1 PMode.pOnError DMode.dOnMeas
    IAwMode.iAwCondition (by norm_num) (by norm_num) (by norm_num) (by decide)

/-- C8: with a positive stored period, `SetSampleTimeUs T2` (for `T2 > 0`)
multiplies `ki` by the ratio `T2 / T1`, divides `kd` by that ratio, stores
`T2`, and changes nothing else (record equality). -/
theorem c8_setsampletime_rescales (s : PIDState) (T2 : ℕ)
    (hT1 : 0 < s.sampleTimeUs) (hT2 : 0 < T2) :
    SetSampleTimeUs s T2 =
      { s with ki := s.ki * ((T2 : ℚ) / (s.sampleTimeUs : ℚ)),
               kd := s.kd / ((T2 : ℚ) / (s.sampleTimeUs : ℚ)),
               sampleTimeUs := T2 } := by
  unfold SetSampleTimeUs
  rw [if_pos hT2]

/-- Witness for C8: doubling `sBase`'s period from 100000 µs to 200000 µs. -/
theorem c8_setsampletime_rescales_witness :
    SetSampleTimeUs sBase 200000 =
      { sBase with
          ki := sBase.ki * ((200000 : ℚ) / (sBase.sampleTimeUs : ℚ)),
          kd := sBase.kd / ((200000 : ℚ) / (sBase.sampleTimeUs : ℚ)),
          sampleTimeUs := 200000 } :=
  c8_setsampletime_rescales sBase 200000 (by decide) (by decide)

/-- C3 (counterexample): in the concrete state `sC3` the conditional
anti-windup fires (`iTermOut = 1000.75 > outMax` with `dError > 0` and
`ki = 1/2 ≠ 0`) and `Compute` runs a full cycle, yet the integral term it
stores is `255` — the clamped hypothetical output `iTermOut` — and not the
prior `iTerm = ki * error = 1/2` clamped into `[-outMax, outMax]`, which
is `1/2`. -/
theorem c3_counterexample :
    (sC3.iawmode = IAwMode.iAwCondition ∧ awTriggered sC3 ∧ sC3.ki ≠ 0) ∧
    (Compute sC3 0 0).2 = true ∧
    GetIterm (Compute sC3 0 0).1 = 255 ∧
    constrain (sC3.ki * errAfter sC3) (-sC3.outMax) sC3.outMax = 1/2 ∧
    GetIterm (Compute sC3 0 0).1
      ≠ constrain (sC3.ki * errAfter sC3) (-sC3.outMax) sC3.outMax := by
  norm_num +decide [Compute, sC3, sBase, SetTunings, timeChangeOf, nowOf,
    errAfter, dInputAfter, dErrorAfter, peTermOf, pmTermOf, dTermOf,
    iTermOutOf, iTermAfter, awTriggered, outputSumAfter, outputAfter,
    constrain, cMin, cMax, GetPterm, GetIterm, GetDterm]

/-- C3 (amended): during a `Compute` cycle with anti-windup mode
`iAwCondition`, if the anti-windup condition fires (`iTermOut > outMax`
with `dError > 0`, or `iTermOut < outMin` with `dError < 0`) and
`ki ≠ 0`, the integral term subsequently added to the accumulator and
reported by `GetIterm` equals `iTermOut` — not the prior `iTerm` — clamped
into `[-outMax, outMax]`; otherwise it is left at `ki * error`. -/
theorem c3_conditional_antiwindup_amended (s : PIDState) (t nowInit : ℕ)
    (hiaw : s.iawmode = IAwMode.iAwCondition)
    (hrun : (Compute s t nowInit).2 = true) :
    (awTriggered s ∧ s.ki ≠ 0 →
      GetIterm (Compute s t nowInit).1
        = constrain (iTermOutOf s) (-s.outMax) s.outMax) ∧
    (¬(awTriggered s ∧ s.ki ≠ 0) →
      GetIterm (Compute s t nowInit).1 = s.ki * errAfter s) := by
  unfold Compute at hrun ⊢
  by_cases hm : s.mode = Control.manual
  · rw [if_pos hm] at hrun
    exact absurd hrun (by simp)
  · rw [if_neg hm] at hrun ⊢
    by_cases hg : s.mode = Control.timer ∨ s.sampleTimeUs ≤ timeChangeOf s t
    · rw [if_pos hg]
      constructor
      · intro haw
        show iTermAfter s = constrain (iTermOutOf s) (-s.outMax) s.outMax
        unfold iTermAfter
        rw [if_pos ⟨hiaw, haw.1, haw.2⟩]
      · intro haw
        show iTermAfter s = s.ki * errAfter s
        unfold iTermAfter
        rw [if_neg (fun hc => haw ⟨hc.2.1, hc.2.2⟩)]
    · rw [if_neg hg] at hrun
      exact absurd hrun (by simp)

/-- Witness for the amended C3 at the concrete state `sC3`, where the
anti-windup condition fires. -/
theorem c3_conditional_antiwindup_amended_witness :
    GetIterm (Compute sC3 0 0).1
      = constrain (iTermOutOf sC3) (-sC3.outMax) sC3.outMax :=
  (c3_conditional_antiwindup_amended sC3 0 0 rfl
      (by norm_num +decide [Compute, sC3, sBase, timeChangeOf, nowOf])).1
    ⟨by norm_num +decide [awTriggered, iTermOutOf, peTermOf, pmTermOf,
        errAfter, dInputAfter, dErrorAfter, sC3, sBase],
      by norm_num [sC3, sBase]⟩

/-- C5: a `SetMode` transition out of `manual` into `automatic` or `timer`
sets the accumulator to the output cell's value clamped into
`[outMin, outMax]` and `lastInput` to the input cell's value; every other
kind of transition (between `automatic` and `timer`, into `manual`, or
`manual` to `manual`) leaves the accumulator and `lastInput` untouched. -/
theorem c5_setmode_bumpless_transfer (s : PIDState) (Mode : Control)
    (gm : Option (ℕ → ℕ)) (t : ℕ) :
    (s.mode = Control.manual ∧ Mode ≠ Control.manual →
      (SetMode s Mode gm t).outputSum = constrain s.output s.outMin s.outMax ∧
      (SetMode s Mode gm t).lastInput = s.input) ∧
    (¬(s.mode = Control.manual ∧ Mode ≠ Control.manual) →
      (SetMode s Mode gm t).outputSum = s.outputSum ∧
      (SetMode s Mode gm t).lastInput = s.lastInput) := by
  have e : SetMode s Mode gm t
      = { (if s.mode = Control.manual ∧ Mode ≠ Control.manual
           then Initialize s else s) with
          mode := Mode, getMicros := none } := rfl
  constructor
  · intro h
    rw [e, if_pos h]
    exact ⟨rfl, rfl⟩
  · intro h
    rw [e, if_neg h]
    exact ⟨rfl, rfl⟩

/-- Witness for C5: activating `sBase` (`manual` → `timer`) initialises the
accumulator and `lastInput`; a `timer` → `manual` transition on the
activated state touches neither. -/
theorem c5_setmode_bumpless_transfer_witness :
    ((SetMode sBase Control.timer none 0).outputSum
        = constrain sBase.output sBase.outMin sBase.outMax ∧
      (SetMode sBase Control.timer none 0).lastInput = sBase.input) ∧
    ((SetMode sClk Control.manual none 0).outputSum = sClk.outputSum ∧
      (SetMode sClk Control.manual none 0).lastInput = sClk.lastInput) :=
  ⟨(c5_setmode_bumpless_transfer sBase Control.timer none 0).1
      ⟨rfl, by decide⟩,
    (c5_setmode_bumpless_transfer sClk Control.manual none 0).2
      (fun h => h.2 rfl)⟩

/-- C6: `Compute` returns `false` on every invocation while the mode is
`manual`, and every invocation that returns `false` — whichever gate
refused it — leaves the entire controller state and the linked cells
exactly as they were. -/
theorem c6_compute_false_is_noop (s : PIDState) (t nowInit : ℕ) :
    (s.mode = Control.manual → (Compute s t nowInit).2 = false) ∧
    ((Compute s t nowInit).2 = false → (Compute s t nowInit).1 = s) := by
  constructor
  · intro h
    unfold Compute
    rw [if_pos h]
  · intro h
    unfold Compute at h ⊢
    by_cases hm : s.mode = Control.manual
    · rw [if_pos hm]
    · rw [if_neg hm] at h ⊢
      by_cases hg : s.mode = Control.timer ∨ s.sampleTimeUs ≤ timeChangeOf s t
      · rw [if_pos hg] at h
        exact absurd h (by simp)
      · rw [if_neg hg]

/-- Witness for C6 at the concrete `manual`-mode state `sBase`. -/
theorem c6_compute_false_is_noop_witness :
    (Compute sBase 0 0).2 = false ∧ (Compute sBase 0 0).1 = sBase :=
  ⟨(c6_compute_false_is_noop sBase 0 0).1 rfl,
    (c6_compute_false_is_noop sBase 0 0).2
      ((c6_compute_false_is_noop sBase 0 0).1 rfl)⟩

/-- C9: bumpless-transfer initialisation touches only the accumulator and
`lastInput` (record equality for `Initialize`), and an activating
`SetMode` call (manual → non-manual) changes only the mode, the stored
clock (nulled), the accumulator and `lastInput`; in particular `lastError`
and the stored `pTerm`/`iTerm`/`dTerm` keep whatever values they held
before activation. -/
theorem c9_activation_frame (s : PIDState) (Mode : Control)
    (gm : Option (ℕ → ℕ)) (t : ℕ)
    (h1 : s.mode = Control.manual) (h2 : Mode ≠ Control.manual) :
    Initialize s = { s with outputSum := constrain s.output s.outMin s.outMax,
                            lastInput := s.input } ∧
    SetMode s Mode gm t
      = { s with mode := Mode, getMicros := none,
                 outputSum := constrain s.output s.outMin s.outMax,
                 lastInput := s.input } := by
  have e : SetMode s Mode gm t
      = { (if s.mode = Control.manual ∧ Mode ≠ Control.manual
           then Initialize s else s) with
          mode := Mode, getMicros := none } := rfl
  refine ⟨rfl, ?_⟩
  rw [e, if_pos ⟨h1, h2⟩]
  rfl

/-- Witness for C9: activating the concrete state `sBase` into `timer`
mode. -/
theorem c9_activation_frame_witness :
    Initialize sBase
      = { sBase with
          outputSum := constrain sBase.output sBase.outMin sBase.outMax,
          lastInput := sBase.input } ∧
    SetMode sBase Control.timer none 0
      = { sBase with mode := Control.timer, getMicros := none,
                     outputSum := constrain sBase.output sBase.outMin
                       sBase.outMax,
                     lastInput := sBase.input } :=
  c9_activation_frame sBase Control.timer none 0 rfl (by decide)

/-- `SetTunings` never touches the sample period. -/
@[simp] lemma setTunings_sampleTimeUs (s : PIDState) (Kp Ki Kd : ℚ)
    (pm : PMode) (dm : DMode) (iaw : IAwMode) :
    (SetTunings s Kp Ki Kd pm dm iaw).sampleTimeUs = s.sampleTimeUs := by
  unfold SetTunings
  split <;> rfl

/-- `SetTunings` never touches the stored clock. -/
@[simp] lemma setTunings_getMicros (s : PIDState) (Kp Ki Kd : ℚ)
    (pm : PMode) (dm : DMode) (iaw : IAwMode) :
    (SetTunings s Kp Ki Kd pm dm iaw).getMicros = s.getMicros := by
  unfold SetTunings
  split <;> rfl

/-- `SetTunings` never touches `lastTime`. -/
@[simp] lemma setTunings_lastTime (s : PIDState) (Kp Ki Kd : ℚ)
    (pm : PMode) (dm : DMode) (iaw : IAwMode) :
    (SetTunings s Kp Ki Kd pm dm iaw).lastTime = s.lastTime := by
  unfold SetTunings
  split <;> rfl

/-- `SetOutputLimits` never touches the stored clock. -/
@[simp] lemma setOutputLimits_getMicros (s : PIDState) (Mn Mx : ℚ) :
    (SetOutputLimits s Mn Mx).getMicros = s.getMicros := by
  unfold SetOutputLimits
  split
  · rfl
  · dsimp only
    split <;> rfl

/-- `SetOutputLimits` never touches the sample period. -/
@[simp] lemma setOutputLimits_sampleTimeUs (s : PIDState) (Mn Mx : ℚ) :
    (SetOutputLimits s Mn Mx).sampleTimeUs = s.sampleTimeUs := by
  unfold SetOutputLimits
  split
  · rfl
  · dsimp only
    split <;> rfl

/-- `uint32_t` subtraction cancellation: starting from `a - S` (mod `2^32`)
and subtracting it from a later reading `b` recovers `b + S - a` provided
the true elapsed span stays below the wrap-around. -/
lemma u32sub_cancel (a b S : ℕ) (hS : S ≤ U32) (hab : a ≤ b)
    (hnw : b + S < U32 + a) :
    u32sub b (u32sub a S) = b + S - a := by
  simp only [u32sub, U32] at *
  omega

/-- C10: constructing a controller with a clock capability sets `lastTime`
to the construction-time reading minus the 100000 µs default sample
period, so the first `Compute` in `automatic` mode — for a monotone
non-decreasing clock whose elapsed span since construction has not wrapped
`uint32_t` — already sees `timeChange ≥ sampleTimeUs` and performs a full
computation immediately. -/
theorem c10_constructor_primes_first_compute (junk : PIDState)
    (In Out Sp Kp Ki Kd : ℚ) (pm : PMode) (dm : DMode) (iaw : IAwMode)
    (act : Action) (f : ℕ → ℕ) (t0 t1 nowInit : ℕ)
    (hmono : f t0 ≤ f t1) (hnw : f t1 + 100000 < U32 + f t0) :
    (mkQuickPID junk In Out Sp Kp Ki Kd pm dm iaw act (some f) t0).lastTime
      = u32sub (f t0) 100000 ∧
    100000 ≤ timeChangeOf
      { mkQuickPID junk In Out Sp Kp Ki Kd pm dm iaw act (some f) t0 with
        mode := Control.automatic } t1 ∧
    (Compute
      { mkQuickPID junk In Out Sp Kp Ki Kd pm dm iaw act (some f) t0 with
        mode := Control.automatic } t1 nowInit).2 = true := by
  have h1 : (mkQuickPID junk In Out Sp Kp Ki Kd pm dm iaw act
      (some f) t0).lastTime = u32sub (f t0) 100000 := by
    simp [mkQuickPID, SetControllerDirection]
  have h2 : (mkQuickPID junk In Out Sp Kp Ki Kd pm dm iaw act
      (some f) t0).getMicros = some f := by
    simp [mkQuickPID, SetControllerDirection]
  have h3 : (mkQuickPID junk In Out Sp Kp Ki Kd pm dm iaw act
      (some f) t0).sampleTimeUs = 100000 := by
    simp [mkQuickPID, SetControllerDirection]
  have h2m : ({ mkQuickPID junk In Out Sp Kp Ki Kd pm dm iaw act
      (some f) t0 with mode := Control.automatic } : PIDState).getMicros
      = some f := h2
  have h1m : ({ mkQuickPID junk In Out Sp Kp Ki Kd pm dm iaw act
      (some f) t0 with mode := Control.automatic } : PIDState).lastTime
      = u32sub (f t0) 100000 := h1
  have htc : timeChangeOf
      { mkQuickPID junk In Out Sp Kp Ki Kd pm dm iaw act (some f) t0 with
        mode := Control.automatic } t1
      = u32sub (f t1) (u32sub (f t0) 100000) := by
    unfold timeChangeOf
    rw [h2m, h1m]
  have harith : u32sub (f t1) (u32sub (f t0) 100000)
      = f t1 + 100000 - f t0 :=
    u32sub_cancel (f t0) (f t1) 100000 (by norm_num [U32]) hmono hnw
  have hge : 100000 ≤ timeChangeOf
      { mkQuickPID junk In Out Sp Kp Ki Kd pm dm iaw act (some f) t0 with
        mode := Control.automatic } t1 := by
    rw [htc, harith]
    omega
  refine ⟨h1, hge, ?_⟩
  have hm : ¬(({ mkQuickPID junk In Out Sp Kp Ki Kd pm dm iaw act
      (some f) t0 with mode := Control.automatic } : PIDState).mode
      = Control.manual) := by
    simp
  have hgate : ({ mkQuickPID junk In Out Sp Kp Ki Kd pm dm iaw act
        (some f) t0 with mode := Control.automatic } : PIDState).mode
        = Control.timer ∨
      ({ mkQuickPID junk In Out Sp Kp Ki Kd pm dm iaw act
        (some f) t0 with mode := Control.automatic } : PIDState).sampleTimeUs
        ≤ timeChangeOf
          { mkQuickPID junk In Out Sp Kp Ki Kd pm dm iaw act (some f) t0 with
            mode := Control.automatic } t1 := by
    right
    have h3m : ({ mkQuickPID junk In Out Sp Kp Ki Kd pm dm iaw act
        (some f) t0 with mode := Control.automatic } : PIDState).sampleTimeUs
        = 100000 := h3
    rw [h3m]
    exact hge
  unfold Compute
  rw [if_neg hm, if_pos hgate]

/-- Witness for C10: building on `sBase`'s field values with cells at `0`,
tunings `2, 5, 1`, the identity clock read at instant `3` for construction
and instant `3` for the first `Compute`. -/
theorem c10_constructor_primes_first_compute_witness :
    (mkQuickPID sBase 0 0 0 2 5 1 PMode.pOnError DMode.dOnMeas
        IAwMode.iAwCondition Action.direct (some (fun n => n)) 3).lastTime
      = u32sub ((fun n : ℕ => n) 3) 100000 ∧
    100000 ≤ timeChangeOf
      { mkQuickPID sBase 0 0 0 2 5 1 PMode.pOnError DMode.dOnMeas
          IAwMode.iAwCondition Action.direct (some (fun n => n)) 3 with
        mode := Control.automatic } 3 ∧
    (Compute
      { mkQuickPID sBase 0 0 0 2 5 1 PMode.pOnError DMode.dOnMeas
          IAwMode.iAwCondition Action.direct (some (fun n => n)) 3 with
        mode := Control.automatic } 3 0).2 = true :=
  c10_constructor_primes_first_compute sBase 0 0 0 2 5 1 PMode.pOnError
    DMode.dOnMeas IAwMode.iAwCondition Action.direct (fun n => n) 3 3 0
    (le_refl 3) (by norm_num [U32])

end QuickPID
